import Mathlib

/-!
A shallow embedding of the FactoryAI Suite core (src/factoryai/config.py,
src/factoryai/core.py, src/factoryai/utils.py, src/factoryai/exceptions.py).

Filesystem state and child-process execution are modelled by oracles (an
`Fs` record of boolean predicates on paths, and exit-code functions), and
the side effects a call would perform (directory creation, process spawns)
are returned explicitly as a trace, so that "no process is spawned" and
"no filesystem mutation occurs" are statements about the returned trace.

POSIX paths are modelled structurally: an absolute flag plus a list of
name components, mirroring pathlib's normalised form (pathlib collapses
duplicate slashes and drops single-dot segments on construction).
-/

namespace FactoryAI

/-! ## Paths (model of pathlib.Path, POSIX flavour) -/

structure FPath where
  absolute : Bool
  parts : List String
deriving DecidableEq, Repr

/-- Model of pathlib's `/` operator: if the right side is absolute it wins,
otherwise its components are appended. -/
def FPath.join (p q : FPath) : FPath :=
  if q.absolute then q else ⟨p.absolute, p.parts ++ q.parts⟩

/-- Appending a single name component, model of `path / "name.py"`. -/
def FPath.child (p : FPath) (s : String) : FPath :=
  ⟨p.absolute, p.parts ++ [s]⟩

/-- Model of `Path.parent`: drop the last component (the parent of the
root, and of the empty relative path, is itself). -/
def FPath.parent (p : FPath) : FPath :=
  if p.parts = [] then p else ⟨p.absolute, p.parts.dropLast⟩

/-- Split a character list at every occurrence of `sep`: model of Python
`str.split(sep)` with a one-character separator (so the result is never
empty, and empty fields are kept). -/
def splitOnChar (sep : Char) : List Char → List (List Char)
  | [] => [[]]
  | c :: cs =>
    if c = sep then [] :: splitOnChar sep cs
    else
      match splitOnChar sep cs with
      | [] => [[c]]
      | g :: gs => (c :: g) :: gs

/-- Interleave `sep` between groups: model of `sep.join(groups)`. -/
def joinChar (sep : Char) : List (List Char) → List Char
  | [] => []
  | [g] => g
  | g :: gs => g ++ sep :: joinChar sep gs

def isAbsStr : List Char → Bool
  | '/' :: _ => true
  | _ => false

/-- A path component kept by pathlib: non-empty, not ".", no slash. -/
def wfPart (g : List Char) : Bool :=
  !g.isEmpty && !(g == ['.']) && !g.contains '/'

/-- Model of `Path(s)` for a POSIX string: absolute iff it starts with a
slash; pathlib drops empty and single-dot components. -/
def parsePath (s : String) : FPath :=
  ⟨isAbsStr s.data, ((splitOnChar '/' s.data).filter wfPart).map String.mk⟩

/-- Model of `str(path)`: "/" -joined components, with the pathlib special
cases `str(Path("")) = "."` and a leading slash for absolute paths. -/
def pathToString (p : FPath) : String :=
  if p.absolute then String.mk ('/' :: joinChar '/' (p.parts.map String.data))
  else if p.parts = [] then "."
  else String.mk (joinChar '/' (p.parts.map String.data))

/-- A structurally well-formed path: every component is something pathlib
would keep (non-empty, not ".", slash-free). -/
def FPath.wf (p : FPath) : Bool :=
  p.parts.all (fun s => wfPart s.data)

/-! ## Error taxonomy (src/factoryai/exceptions.py) -/

/-- The exception classes of the suite.  `factoryAIError` carries the base
class's message and optional details; `submoduleNotFound` is
SubmoduleNotFoundError (its message and details are fixed by its
constructor); `componentError` is ComponentError tagged with the component
id; `pyKeyError` models a raw Python KeyError escaping a dict lookup. -/
inductive FErr where
  | factoryAIError (message : String) (details : Option String)
  | submoduleNotFound (name : String)
  | configurationError (message : String)
  | componentError (component : String) (message : String)
  | validationError (message : String)
  | pyKeyError (key : String)
deriving DecidableEq, Repr

/-! ## Configuration (src/factoryai/config.py) -/

structure SubmoduleConfig where
  name : String
  path : String
  url : String
  enabled : Bool
deriving DecidableEq, Repr

structure FactoryAIConfig where
  root_dir : FPath
  submodules_dir : FPath
  log_level : String
  log_file : Option FPath
  components : List (String × SubmoduleConfig)
deriving DecidableEq, Repr

/-- The fixed default component set of `_init_default_components`. -/
def default_components : List (String × SubmoduleConfig) :=
  [("factory-app-ai",
    ⟨"Factory-App-AI", "src/platfom/Factory-App-AI",
     "https://github.com/ruslanmv/Factory-App-AI", true⟩),
   ("factory-feature",
    ⟨"Factory-Feature", "src/platfom/Factory-Feature",
     "https://github.com/ruslanmv/Factory-Feature", true⟩),
   ("factory-debug",
    ⟨"Factory-Debug", "src/platfom/Factory-Debug",
     "https://github.com/ruslanmv/Factory-Debug", false⟩)]

/-- The dataclass constructor together with `__post_init__`: a relative
submodules directory is joined onto the root, and an empty component
mapping is replaced by the three defaults.  (The Python default for the
submodules argument is `Path("src/platfom")`.) -/
def mkFactoryAIConfig (root_dir : FPath) (submodules_dir : FPath)
    (log_level : String) (log_file : Option FPath)
    (components : List (String × SubmoduleConfig)) : FactoryAIConfig :=
  let submodules_dir :=
    if submodules_dir.absolute then submodules_dir
    else root_dir.join submodules_dir
  let components :=
    if components.isEmpty then default_components else components
  ⟨root_dir, submodules_dir, log_level, log_file, components⟩

/-- `get_component_path`: raises ConfigurationError on an unknown id,
otherwise `root_dir / component.path`. -/
def get_component_path (cfg : FactoryAIConfig) (component_name : String) :
    Except FErr FPath :=
  match cfg.components.lookup component_name with
  | none =>
    .error (.configurationError
      ("Component '" ++ component_name ++ "' not found in configuration."))
  | some component => .ok (cfg.root_dir.join (parsePath component.path))

/-! ## Filesystem and process oracles -/

/-- Filesystem oracle: `exists_p` models `Path.exists()` and `is_dir`
models `Path.is_dir()`. -/
structure Fs where
  exists_p : FPath → Bool
  is_dir : FPath → Bool

/-- Process-environment oracle.  `git_installed` models the result of
`check_git_installed()` (which probes `git --version`); `run_interactive`
gives the exit code of `subprocess.run(command, cwd=...)`;
`run_captured` gives `(returncode, stdout, stderr)` of `run_command`. -/
structure ProcEnv where
  fs : Fs
  git_installed : Bool
  run_interactive : List String → FPath → Int
  run_captured : List String → FPath → Int × String × String

/-- `is_component_available`: false for an unknown id, otherwise the
resolved path must exist and be a directory. -/
def is_component_available (cfg : FactoryAIConfig) (fs : Fs)
    (component_name : String) : Bool :=
  match cfg.components.lookup component_name with
  | none => false
  | some component =>
    let component_path := cfg.root_dir.join (parsePath component.path)
    fs.exists_p component_path && fs.is_dir component_path

/-- `to_dict` / `from_dict` exchange records: paths and the optional log
file are stored as strings, components as their four-field sub-records
(here the sub-record is `SubmoduleConfig` itself, whose four fields are
exactly the serialized keys). -/
structure ConfigDict where
  root_dir : String
  submodules_dir : String
  log_level : String
  log_file : Option String
  components : List (String × SubmoduleConfig)
deriving DecidableEq, Repr

/-- `FactoryAIConfig.to_dict`. -/
def to_dict (cfg : FactoryAIConfig) : ConfigDict :=
  ⟨pathToString cfg.root_dir, pathToString cfg.submodules_dir,
   cfg.log_level, cfg.log_file.map pathToString, cfg.components⟩

/-- `FactoryAIConfig.from_dict`: rebuilds the components, parses the path
strings, maps a falsy (absent or empty) log-file entry to `None`, and runs
the constructor (hence `__post_init__`) again. -/
def from_dict (d : ConfigDict) : FactoryAIConfig :=
  mkFactoryAIConfig (parsePath d.root_dir) (parsePath d.submodules_dir)
    d.log_level
    (match d.log_file with
     | none => none
     | some s => if s = "" then none else some (parsePath s))
    d.components

/-! ## Utilities (src/factoryai/utils.py) -/

/-- `is_git_repository`: `path / ".git"` must exist and be a directory. -/
def is_git_repository (fs : Fs) (path : FPath) : Bool :=
  let git_dir := path.child ".git"
  fs.exists_p git_dir && fs.is_dir git_dir

/-- A filesystem effect performed by the orchestrator. -/
inductive FsEffect where
  | mkdir (p : FPath)
  | git_run (command : List String) (cwd : FPath)
deriving DecidableEq, Repr

/-- `ensure_directory` (with its default `create=True`): an existing
non-directory is an error, an existing directory is fine, a missing one is
created (the creation is reported as a trace effect; the model takes the
`mkdir` itself to succeed). -/
def ensure_directory (fs : Fs) (path : FPath) :
    Except FErr (List FsEffect) :=
  if fs.exists_p path then
    if !fs.is_dir path then
      .error (.factoryAIError
        ("Path exists but is not a directory: " ++ pathToString path) none)
    else .ok []
  else .ok [.mkdir path]

/-! ## Orchestrator (src/factoryai/core.py) -/

/-- `sync_submodules`: the result with the trace of filesystem effects the
call performed (directory creations and git invocations).  Both error
guards fire before anything touches the filesystem.  `run_command` with
`check=True` turns a non-zero exit into a FactoryAIError carrying the
command line and stderr. -/
def sync_submodules (cfg : FactoryAIConfig) (env : ProcEnv) (force : Bool) :
    Except FErr Unit × List FsEffect :=
  if !env.git_installed then
    (.error (.factoryAIError "Git is not installed"
      (some "Please install Git to use FactoryAI.")), [])
  else if !is_git_repository env.fs cfg.root_dir then
    (.error (.factoryAIError
      ("Not a git repository: " ++ pathToString cfg.root_dir)
      (some "Please clone the FactoryAI repository properly.")), [])
  else
    match ensure_directory env.fs cfg.submodules_dir.parent with
    | .error e => (.error e, [])
    | .ok effects =>
      let command :=
        ["git", "submodule", "update", "--init", "--recursive"]
          ++ (if force then ["--force"] else [])
      let r := env.run_captured command cfg.root_dir
      let effects := effects ++ [.git_run command cfg.root_dir]
      if r.1 != 0 then
        (.error (.factoryAIError
          ("Command failed with exit code " ++ toString r.1)
          (some ("Command: " ++ " ".intercalate command
                 ++ "\nStderr: " ++ r.2.2))), effects)
      else (.ok (), effects)

/-- One entry of the `get_component_status` result. -/
structure ComponentStatus where
  name : String
  enabled : Bool
  available : Bool
  path : String
  url : String
deriving DecidableEq, Repr

/-- `get_component_status`: iterates the component mapping; note the
source computes `is_available = component_path.exists()` here, without the
`is_dir` conjunct of `is_component_available`. -/
def get_component_status (cfg : FactoryAIConfig) (fs : Fs) :
    List (String × ComponentStatus) :=
  cfg.components.map (fun nc =>
    let component_path := cfg.root_dir.join (parsePath nc.2.path)
    (nc.1,
     ⟨nc.2.name, nc.2.enabled, fs.exists_p component_path,
      pathToString component_path, nc.2.url⟩))

/-- A child process spawned by `run_component`. -/
inductive RunEffect where
  | spawn (command : List String) (cwd : FPath)
deriving DecidableEq, Repr

/-- `run_component`: availability check, enabled check, entry-point
resolution (`main.py` then `app.py`), then the spawn.  Interactive runs go
through `subprocess.run` (the `run_interactive` oracle), non-interactive
through `run_command` with `check=False` (the `run_captured` oracle); both
feed the same non-zero-exit check.  The spawn trace records every child
process the call started. -/
def run_component (cfg : FactoryAIConfig) (env : ProcEnv)
    (component : String) (args : List String) (interactive : Bool) :
    Except FErr Int × List RunEffect :=
  if !is_component_available cfg env.fs component then
    (.error (.submoduleNotFound component), [])
  else
    match cfg.components.lookup component with
    | none => (.error (.pyKeyError component), [])
    | some component_config =>
      if !component_config.enabled then
        (.error (.componentError component "Component is not enabled"), [])
      else
        let component_path := cfg.root_dir.join (parsePath component_config.path)
        let main_script :=
          if env.fs.exists_p (component_path.child "main.py") then
            component_path.child "main.py"
          else component_path.child "app.py"
        if !env.fs.exists_p main_script then
          (.error (.componentError component
            ("No main entry point found at " ++ pathToString component_path)),
           [])
        else
          let command := ["python", pathToString main_script] ++ args
          let returncode : Int :=
            if interactive then env.run_interactive command component_path
            else (env.run_captured command component_path).1
          if returncode != 0 then
            (.error (.componentError component
              ("Component exited with code " ++ toString returncode)),
             [.spawn command component_path])
          else (.ok returncode, [.spawn command component_path])

/-- The `validate_installation` report. -/
structure ValidationReport where
  valid : Bool
  git_installed : Bool
  is_git_repo : Bool
  submodules_initialized : Bool
  components : List (String × ComponentStatus)
  errors : List String
deriving DecidableEq, Repr

/-- `validate_installation`, mirroring the source's sequential updates of
the result record. -/
def validate_installation (cfg : FactoryAIConfig) (env : ProcEnv) :
    ValidationReport :=
  let valid := true
  let errors : List String := []
  let git_installed := env.git_installed
  let valid := if git_installed then valid else false
  let errors := if git_installed then errors
    else errors ++ ["Git is not installed"]
  let is_git_repo := is_git_repository env.fs cfg.root_dir
  let valid := if is_git_repo then valid else false
  let errors := if is_git_repo then errors
    else errors ++ ["Not a git repository"]
  let component_status := get_component_status cfg env.fs
  let available_components :=
    (component_status.filter (fun nc => nc.2.available && nc.2.enabled)).map
      Prod.fst
  let submodules_initialized := decide (available_components.length > 0)
  let errors := if submodules_initialized then errors
    else errors ++
      ["No components are initialized. Run 'factoryai sync' or 'make sync'."]
  ⟨valid, git_installed, is_git_repo, submodules_initialized,
   component_status, errors⟩

/-! ## Version helpers (src/factoryai/utils.py) -/

def pyWhitespace (c : Char) : Bool :=
  c = ' ' || c = '\t' || c = '\n' || c = '\x0d' || c = '\x0b' || c = '\x0c'

/-- Digit run with single underscores allowed between digits, accumulating
the value (model of the digit grammar of Python `int()`). -/
def pyDigitsCore : Nat → List Char → Option Nat
  | acc, [] => some acc
  | acc, '_' :: c :: cs =>
    if c.isDigit then pyDigitsCore (acc * 10 + (c.toNat - 48)) cs else none
  | _, ['_'] => none
  | acc, c :: cs =>
    if c.isDigit then pyDigitsCore (acc * 10 + (c.toNat - 48)) cs else none

def pyUnsignedVal : List Char → Option Nat
  | [] => none
  | c :: cs =>
    if c.isDigit then pyDigitsCore (c.toNat - 48) cs else none

def pySignedVal : List Char → Option Int
  | '+' :: cs => (pyUnsignedVal cs).map Int.ofNat
  | '-' :: cs => (pyUnsignedVal cs).map (fun n => -(Int.ofNat n))
  | cs => (pyUnsignedVal cs).map Int.ofNat

/-- Model of Python `int(s)` for a decimal string: surrounding ASCII
whitespace, an optional sign, then digits (underscores allowed between
digits); `none` models a ValueError. -/
def pyIntOfString (s : String) : Option Int :=
  pySignedVal ((s.data.dropWhile pyWhitespace).reverse.dropWhile
    pyWhitespace).reverse

/-- Convert every field with `int`, failing at the first bad segment
(model of `tuple(int(x) for x in ...)`). -/
def mapIntSegs : List String → Option (List Int)
  | [] => some []
  | s :: t =>
    match pyIntOfString s with
    | none => none
    | some n => (mapIntSegs t).map (fun l => n :: l)

/-- `parse_version`: split on ".", convert every field with `int`; any
ValueError becomes a ValidationError. -/
def parse_version (version_string : String) : Except FErr (List Int) :=
  match mapIntSegs ((splitOnChar '.' version_string.data).map String.mk) with
  | none =>
    .error (.validationError ("Invalid version string: " ++ version_string))
  | some l => .ok l

/-- Python tuple `<` on integer tuples: strict lexicographic order, a
proper prefix counting as smaller. -/
def tupleLt : List Int → List Int → Bool
  | _, [] => false
  | [], _ :: _ => true
  | a :: as_, b :: bs =>
    if a < b then true else if a = b then tupleLt as_ bs else false

/-- `compare_versions`: parse both (the first argument first, as in the
source), then -1 / 1 / 0 by tuple comparison. -/
def compare_versions (version1 version2 : String) : Except FErr Int :=
  match parse_version version1 with
  | .error e => .error e
  | .ok v1 =>
    match parse_version version2 with
    | .error e => .error e
    | .ok v2 =>
      if tupleLt v1 v2 then .ok (-1)
      else if tupleLt v2 v1 then .ok 1
      else .ok 0

/-! ## Concrete fixtures (filesystem and process oracles for evaluation) -/

/-- Everything exists and is a directory. -/
def fsAll : Fs := ⟨fun _ => true, fun _ => true⟩

/-- Nothing exists. -/
def fsNone : Fs := ⟨fun _ => false, fun _ => false⟩

/-- Every path exists but nothing is a directory (a filesystem of plain
files). -/
def fsFilesEverywhere : Fs := ⟨fun _ => true, fun _ => false⟩

/-- Every path except ones ending in "main.py" exists; directories
everywhere. -/
def fsNoMain : Fs :=
  ⟨fun p => !(p.parts.getLast? == some "main.py"), fun _ => true⟩

/-- Neither "main.py" nor "app.py" entries exist; directories
everywhere. -/
def fsNoEntry : Fs :=
  ⟨fun p =>
    !(p.parts.getLast? == some "main.py")
      && !(p.parts.getLast? == some "app.py"),
   fun _ => true⟩

/-- A process environment with a fixed exit code for every spawn. -/
def envWith (fs : Fs) (git : Bool) (code : Int) : ProcEnv :=
  ⟨fs, git, fun _ _ => code, fun _ _ => (code, "", "")⟩

/-- A configuration rooted at an absolute path, with the default
submodules directory and the default component set. -/
def cfgDefault : FactoryAIConfig :=
  mkFactoryAIConfig ⟨true, ["opt", "factoryai"]⟩ (parsePath "src/platfom")
    "INFO" none []

/-- A configuration whose root directory is a relative path. -/
def cfgRelative : FactoryAIConfig :=
  mkFactoryAIConfig ⟨false, ["rel"]⟩ ⟨false, ["sub"]⟩ "INFO" none []

/-! ## Helper lemmas on splitting and joining -/

theorem splitOnChar_ne_nil (sep : Char) (cs : List Char) :
    splitOnChar sep cs ≠ [] := by
  induction cs with
  | nil => simp [splitOnChar]
  | cons c cs ih =>
    simp only [splitOnChar]
    split
    · simp
    · rcases h : splitOnChar sep cs with _ | ⟨g, gs⟩
      · exact absurd h ih
      · simp

theorem splitOnChar_of_not_contains (sep : Char) (g : List Char)
    (h : g.contains sep = false) : splitOnChar sep g = [g] := by
  induction g with
  | nil => rfl
  | cons c cs ih =>
    simp only [List.contains_cons, Bool.or_eq_false_iff] at h
    simp only [splitOnChar]
    rw [if_neg (beq_eq_false_iff_ne.mp h.1).symm]
    rw [ih h.2]

theorem splitOnChar_append_sep (sep : Char) (xs ys : List Char)
    (h : xs.contains sep = false) :
    splitOnChar sep (xs ++ sep :: ys) = xs :: splitOnChar sep ys := by
  induction xs with
  | nil => simp [splitOnChar]
  | cons c cs ih =>
    simp only [List.contains_cons, Bool.or_eq_false_iff] at h
    simp only [List.cons_append, splitOnChar]
    rw [if_neg (beq_eq_false_iff_ne.mp h.1).symm]
    rw [List.append_eq, ih h.2]

theorem splitOnChar_joinChar (sep : Char) (gs : List (List Char))
    (hne : gs ≠ []) (h : ∀ g ∈ gs, g.contains sep = false) :
    splitOnChar sep (joinChar sep gs) = gs := by
  induction gs with
  | nil => exact absurd rfl hne
  | cons g gs ih =>
    cases gs with
    | nil =>
      exact splitOnChar_of_not_contains sep g (h g (by simp))
    | cons g2 gs2 =>
      have hg : g.contains sep = false := h g (by simp)
      show splitOnChar sep (g ++ sep :: joinChar sep (g2 :: gs2)) = _
      rw [splitOnChar_append_sep sep g _ hg]
      rw [ih (by simp) (fun x hx => h x (List.mem_cons_of_mem _ hx))]

theorem joinChar_cons_eq_append (sep : Char) (g : List Char)
    (gs : List (List Char)) :
    ∃ t, joinChar sep (g :: gs) = g ++ t := by
  cases gs with
  | nil => exact ⟨[], by simp [joinChar]⟩
  | cons g2 gs2 => exact ⟨sep :: joinChar sep (g2 :: gs2), rfl⟩

theorem map_mk_data (l : List String) :
    List.map String.mk (List.map String.data l) = l := by
  induction l with
  | nil => rfl
  | cons s t ih =>
    simp only [List.map_cons]
    rw [ih]

theorem splitOnChar_cons_self (sep : Char) (cs : List Char) :
    splitOnChar sep (sep :: cs) = [] :: splitOnChar sep cs := by
  simp [splitOnChar]

theorem isAbsStr_eq_false (c : Char) (cs : List Char) (h : c ≠ '/') :
    isAbsStr (c :: cs) = false := by
  simp only [isAbsStr]
  split
  · next heq =>
    injection heq with h1 h2
    exact absurd h1 h
  · rfl

theorem wfPart_not_contains (g : List Char) (h : wfPart g = true) :
    g.contains '/' = false := by
  simp only [wfPart, Bool.and_eq_true, Bool.not_eq_true'] at h
  exact h.2

theorem wfPart_ne_nil (g : List Char) (h : wfPart g = true) : g ≠ [] := by
  simp only [wfPart, Bool.and_eq_true, Bool.not_eq_true'] at h
  simpa using h.1.1

theorem wfPart_nil : wfPart [] = false := rfl

theorem parsePath_pathToString (p : FPath) (h : p.wf = true) :
    parsePath (pathToString p) = p := by
  obtain ⟨ab, parts⟩ := p
  simp only [FPath.wf, List.all_eq_true] at h
  have hwf : ∀ g ∈ parts.map String.data, wfPart g = true := by
    intro g hg
    obtain ⟨s, hs, rfl⟩ := List.mem_map.mp hg
    exact h s hs
  have hns : ∀ g ∈ parts.map String.data, g.contains '/' = false :=
    fun g hg => wfPart_not_contains g (hwf g hg)
  cases ab with
  | true =>
    cases parts with
    | nil => decide
    | cons s rest =>
      show parsePath (String.mk ('/' :: joinChar '/'
        ((s :: rest).map String.data))) = _
      simp only [parsePath]
      have hsplit : splitOnChar '/' ('/' :: joinChar '/'
          ((s :: rest).map String.data)) =
          [] :: (s :: rest).map String.data := by
        rw [splitOnChar_cons_self,
          splitOnChar_joinChar '/' _ (by simp) hns]
      refine congrArg₂ FPath.mk rfl ?_
      rw [hsplit, List.filter_cons_of_neg (by simp [wfPart_nil]),
        List.filter_eq_self.mpr hwf, map_mk_data]
  | false =>
    cases parts with
    | nil => decide
    | cons s rest =>
      show parsePath (String.mk (joinChar '/'
        ((s :: rest).map String.data))) = _
      simp only [parsePath]
      obtain ⟨t, ht⟩ := joinChar_cons_eq_append '/' s.data
        (rest.map String.data)
      have hs : wfPart s.data = true := h s (by simp)
      obtain ⟨c, cs, hcs⟩ :=
        List.exists_cons_of_ne_nil (wfPart_ne_nil s.data hs)
      have hcslash : c ≠ '/' := by
        intro hc
        have hcontains := wfPart_not_contains s.data hs
        rw [hcs, hc] at hcontains
        simp [List.contains_cons] at hcontains
      refine congrArg₂ FPath.mk ?_ ?_
      · simp only [List.map_cons]
        rw [ht, hcs, List.cons_append]
        exact isAbsStr_eq_false c (cs ++ t) hcslash
      · rw [splitOnChar_joinChar '/' _ (by simp) hns]
        rw [List.filter_eq_self.mpr hwf, map_mk_data]

theorem pathToString_ne_empty (p : FPath) (h : p.wf = true) :
    pathToString p ≠ "" := by
  obtain ⟨ab, parts⟩ := p
  simp only [FPath.wf, List.all_eq_true] at h
  cases ab with
  | true =>
    show String.mk ('/' :: joinChar '/' (parts.map String.data)) ≠ ""
    intro hc
    exact absurd (congrArg String.data hc) (by simp)
  | false =>
    cases parts with
    | nil =>
      show ("." : String) ≠ ""
      decide
    | cons s rest =>
      show String.mk (joinChar '/' ((s :: rest).map String.data)) ≠ ""
      obtain ⟨t, ht⟩ := joinChar_cons_eq_append '/' s.data
        (rest.map String.data)
      intro hc
      have hd := congrArg String.data hc
      simp only [List.map_cons] at hd
      rw [ht] at hd
      have hne : s.data ≠ [] := wfPart_ne_nil s.data (h s (by simp))
      cases hne (List.append_eq_nil.mp hd).1

theorem get_component_status_lookup (cfg : FactoryAIConfig) (fs : Fs)
    (name : String) (comp : SubmoduleConfig)
    (hc : cfg.components.lookup name = some comp) :
    (get_component_status cfg fs).lookup name =
      some ⟨comp.name, comp.enabled,
        fs.exists_p (cfg.root_dir.join (parsePath comp.path)),
        pathToString (cfg.root_dir.join (parsePath comp.path)), comp.url⟩ := by
  obtain ⟨rd, sd, ll, lf, comps⟩ := cfg
  simp only [get_component_status] at *
  induction comps with
  | nil => exact Option.noConfusion hc
  | cons kv t ih =>
    obtain ⟨k, v⟩ := kv
    by_cases hk : name = k
    · subst hk
      simp only [List.lookup, beq_self_eq_true] at hc
      injection hc with hc
      subst hc
      simp only [List.map_cons, List.lookup, beq_self_eq_true]
    · have hkb : (name == k) = false := beq_eq_false_iff_ne.mpr hk
      simp only [List.lookup, hkb] at hc
      simp only [List.map_cons, List.lookup, hkb]
      exact ih hc

/-- C1 (amended): for every component id present in the configuration
mapping, the `available` boolean reported by `get_component_status` equals
bare existence of the resolved path — the source omits the `is_dir`
conjunct there — and therefore coincides with `is_component_available`
whenever the resolved path, if it exists, is in fact a directory. -/
theorem status_available_eq_exists (cfg : FactoryAIConfig) (fs : Fs)
    (name : String) (comp : SubmoduleConfig)
    (hc : cfg.components.lookup name = some comp) :
    ((get_component_status cfg fs).lookup name).map ComponentStatus.available
      = some (fs.exists_p (cfg.root_dir.join (parsePath comp.path)))
    ∧ ((fs.exists_p (cfg.root_dir.join (parsePath comp.path)) = true →
          fs.is_dir (cfg.root_dir.join (parsePath comp.path)) = true) →
        ((get_component_status cfg fs).lookup name).map
            ComponentStatus.available
          = some (is_component_available cfg fs name)) := by
  have hl := get_component_status_lookup cfg fs name comp hc
  constructor
  · rw [hl]
    rfl
  · intro hdir
    rw [hl]
    simp only [is_component_available, hc]
    cases he : fs.exists_p (cfg.root_dir.join (parsePath comp.path)) with
    | false => simp [he]
    | true => simp [he, hdir he]

/-- C1 witness: on the default configuration and an all-directories
filesystem the status `available` flag agrees with
`is_component_available`. -/
theorem status_available_eq_exists_witness :
    ((get_component_status cfgDefault fsAll).lookup "factory-app-ai").map
        ComponentStatus.available
      = some (is_component_available cfgDefault fsAll "factory-app-ai") :=
  (status_available_eq_exists cfgDefault fsAll "factory-app-ai"
      ⟨"Factory-App-AI", "src/platfom/Factory-App-AI",
       "https://github.com/ruslanmv/Factory-App-AI", true⟩ rfl).2
    (fun _ => rfl)

/-- C1 counterexample: on a filesystem where every path exists but none
is a directory, the status query reports `available = true` for
factory-app-ai while `is_component_available` returns false, refuting the
claimed equivalence (and the claimed exists-and-is-directory reading). -/
theorem status_available_file_counterexample :
    ((get_component_status cfgDefault fsFilesEverywhere).lookup
        "factory-app-ai").map ComponentStatus.available = some true
    ∧ is_component_available cfgDefault fsFilesEverywhere "factory-app-ai"
        = false
    ∧ fsFilesEverywhere.is_dir (cfgDefault.root_dir.join
        (parsePath "src/platfom/Factory-App-AI")) = false :=
  ⟨rfl, rfl, rfl⟩

/-- C2 (amended): after construction the submodules directory equals the
root joined with the supplied value whenever the supplied value is
relative (and is kept as-is when absolute); it is absolute whenever the
root is absolute or the supplied value is absolute — but not for a
relative root with a relative submodules value. -/
theorem submodules_dir_resolution (rd sd : FPath) (ll : String)
    (lf : Option FPath) (comps : List (String × SubmoduleConfig)) :
    (sd.absolute = false →
      (mkFactoryAIConfig rd sd ll lf comps).submodules_dir = rd.join sd)
    ∧ (sd.absolute = true →
      (mkFactoryAIConfig rd sd ll lf comps).submodules_dir = sd)
    ∧ ((rd.absolute = true ∨ sd.absolute = true) →
      (mkFactoryAIConfig rd sd ll lf comps).submodules_dir.absolute
        = true) := by
  refine ⟨?_, ?_, ?_⟩
  · intro h
    simp [mkFactoryAIConfig, h, FPath.join]
  · intro h
    simp [mkFactoryAIConfig, h]
  · rintro (h | h)
    · cases hs : sd.absolute <;>
        simp [mkFactoryAIConfig, hs, FPath.join, h]
    · simp [mkFactoryAIConfig, h]

/-- C2 witness: with an absolute root and the relative value ["b"], the
constructed submodules directory is the join and is absolute. -/
theorem submodules_dir_resolution_witness :
    (mkFactoryAIConfig ⟨true, ["a"]⟩ ⟨false, ["b"]⟩ "INFO" none
        []).submodules_dir = FPath.join ⟨true, ["a"]⟩ ⟨false, ["b"]⟩
    ∧ (mkFactoryAIConfig ⟨true, ["a"]⟩ ⟨false, ["b"]⟩ "INFO" none
        []).submodules_dir.absolute = true :=
  ⟨(submodules_dir_resolution ⟨true, ["a"]⟩ ⟨false, ["b"]⟩ "INFO" none
      []).1 rfl,
   (submodules_dir_resolution ⟨true, ["a"]⟩ ⟨false, ["b"]⟩ "INFO" none
      []).2.2 (Or.inl rfl)⟩

/-- C2 counterexample: with a relative root directory and a relative
submodules directory the constructed submodules directory is still a
relative path, refuting the claimed unconditional absoluteness. -/
theorem submodules_dir_relative_counterexample :
    cfgRelative.submodules_dir.absolute = false
    ∧ cfgRelative.submodules_dir = ⟨false, ["rel", "sub"]⟩ :=
  ⟨rfl, rfl⟩

/-- C9: constructing a configuration with an empty component mapping
always yields exactly three components, of which exactly one
(factory-debug) is disabled and the other two (factory-app-ai and
factory-feature) are enabled, independent of the root or submodules
directories, log level and log file. -/
theorem default_components_shape (rd sd : FPath) (ll : String)
    (lf : Option FPath) :
    (mkFactoryAIConfig rd sd ll lf []).components.length = 3
    ∧ ((mkFactoryAIConfig rd sd ll lf []).components.filter
        (fun nc => !nc.2.enabled)).map Prod.fst = ["factory-debug"]
    ∧ ((mkFactoryAIConfig rd sd ll lf []).components.filter
        (fun nc => nc.2.enabled)).map Prod.fst
      = ["factory-app-ai", "factory-feature"] :=
  ⟨rfl, rfl, rfl⟩

theorem run_component_cases (cfg : FactoryAIConfig) (env : ProcEnv)
    (component : String) (args : List String) (interactive : Bool) :
    (∃ e, run_component cfg env component args interactive = (.error e, []))
    ∨ (∃ command cwd,
        run_component cfg env component args interactive =
          (if (if interactive then env.run_interactive command cwd
                else (env.run_captured command cwd).1) != 0 then
             (.error (.componentError component
               ("Component exited with code " ++ toString
                 (if interactive then env.run_interactive command cwd
                  else (env.run_captured command cwd).1))),
              [.spawn command cwd])
           else
             (.ok (if interactive then env.run_interactive command cwd
                else (env.run_captured command cwd).1),
              [.spawn command cwd]))) := by
  simp only [run_component]
  split
  · exact Or.inl ⟨_, rfl⟩
  · split
    · exact Or.inl ⟨_, rfl⟩
    · split
      · exact Or.inl ⟨_, rfl⟩
      · split
        · split
          · exact Or.inl ⟨_, rfl⟩
          · exact Or.inr ⟨_, _, rfl⟩
        · split
          · exact Or.inl ⟨_, rfl⟩
          · exact Or.inr ⟨_, _, rfl⟩

/-- C3: run_component never returns a non-zero value: a successful result
is necessarily 0, and whenever the spawned child (in either mode) exits
with a non-zero code the result is a ComponentError naming the component
and the code; a zero exit yields the returned code 0. -/
theorem run_component_exit_code (cfg : FactoryAIConfig) (env : ProcEnv)
    (component : String) (args : List String) (interactive : Bool) :
    (∀ n : Int,
      (run_component cfg env component args interactive).1 = .ok n → n = 0)
    ∧ (∀ (command : List String) (cwd : FPath) (rc : Int),
        (run_component cfg env component args interactive).2
          = [.spawn command cwd] →
        (if interactive then env.run_interactive command cwd
          else (env.run_captured command cwd).1) = rc →
        rc ≠ 0 →
        (run_component cfg env component args interactive).1 =
          .error (.componentError component
            ("Component exited with code " ++ toString rc)))
    ∧ (∀ (command : List String) (cwd : FPath),
        (run_component cfg env component args interactive).2
          = [.spawn command cwd] →
        (if interactive then env.run_interactive command cwd
          else (env.run_captured command cwd).1) = 0 →
        (run_component cfg env component args interactive).1 = .ok 0) := by
  refine ⟨?_, ?_, ?_⟩
  · intro n h
    rcases run_component_cases cfg env component args interactive with
      ⟨e, heq⟩ | ⟨command, cwd, heq⟩
    · rw [heq] at h
      exact absurd h (by simp)
    · rw [heq] at h
      by_cases hrc : (if interactive then env.run_interactive command cwd
          else (env.run_captured command cwd).1) = 0
      · rw [hrc] at h
        simp at h
        exact h.symm
      · simp [hrc] at h
  · intro command cwd rc htr hrc hne
    rcases run_component_cases cfg env component args interactive with
      ⟨e, heq⟩ | ⟨c0, w0, heq⟩
    · rw [heq] at htr
      simp at htr
    · rw [heq] at htr ⊢
      rw [apply_ite Prod.snd] at htr
      simp only [ite_self] at htr
      simp only [List.cons.injEq, and_true, RunEffect.spawn.injEq] at htr
      obtain ⟨h1, h2⟩ := htr
      subst h1
      subst h2
      subst hrc
      rw [if_pos (by simpa using hne)]
  · intro command cwd htr hz
    rcases run_component_cases cfg env component args interactive with
      ⟨e, heq⟩ | ⟨c0, w0, heq⟩
    · rw [heq] at htr
      simp at htr
    · rw [heq] at htr ⊢
      rw [apply_ite Prod.snd] at htr
      simp only [ite_self] at htr
      simp only [List.cons.injEq, and_true, RunEffect.spawn.injEq] at htr
      obtain ⟨h1, h2⟩ := htr
      subst h1
      subst h2
      rw [hz]
      simp

/-- C3 witness: with every spawn exiting with code 42, running
factory-app-ai interactively fails with the ComponentError naming the
component and the code 42. -/
theorem run_component_exit_code_witness :
    (run_component cfgDefault (envWith fsAll true 42) "factory-app-ai"
        [] true).1 =
      .error (.componentError "factory-app-ai"
        "Component exited with code 42") :=
  (run_component_exit_code cfgDefault (envWith fsAll true 42)
      "factory-app-ai" [] true).2.1
    ["python", "/opt/factoryai/src/platfom/Factory-App-AI/main.py"]
    ⟨true, ["opt", "factoryai", "src", "platfom", "Factory-App-AI"]⟩
    42 (by decide) (by decide) (by decide)

/-- C5: for an available, enabled component whose directory has app.py
but not main.py, run_component spawns the fallback script (with the
caller's arguments appended); when neither entry point exists it fails
with the no-entry-point ComponentError and spawns nothing. -/
theorem run_component_entry_resolution (cfg : FactoryAIConfig)
    (env : ProcEnv) (component : String) (args : List String)
    (interactive : Bool) (comp : SubmoduleConfig)
    (hl : cfg.components.lookup component = some comp)
    (ha : is_component_available cfg env.fs component = true)
    (he : comp.enabled = true) :
    (env.fs.exists_p ((cfg.root_dir.join (parsePath comp.path)).child
        "main.py") = false →
     env.fs.exists_p ((cfg.root_dir.join (parsePath comp.path)).child
        "app.py") = true →
     (run_component cfg env component args interactive).2 =
       [.spawn (["python", pathToString ((cfg.root_dir.join
           (parsePath comp.path)).child "app.py")] ++ args)
         (cfg.root_dir.join (parsePath comp.path))])
    ∧ (env.fs.exists_p ((cfg.root_dir.join (parsePath comp.path)).child
        "main.py") = false →
       env.fs.exists_p ((cfg.root_dir.join (parsePath comp.path)).child
        "app.py") = false →
       run_component cfg env component args interactive =
         (.error (.componentError component
           ("No main entry point found at "
             ++ pathToString (cfg.root_dir.join (parsePath comp.path)))),
          [])) := by
  constructor
  · intro hm hap
    simp only [run_component, ha, hl, he, hm, hap, Bool.not_true,
      Bool.not_false, if_false, if_true, Bool.false_eq_true, ite_false,
      ite_true]
    rw [apply_ite Prod.snd]
    simp [ite_self]
  · intro hm hap
    simp [run_component, ha, hl, he, hm, hap]

/-- C5 witness: on a filesystem with no main.py anywhere (but app.py
present), running factory-app-ai spawns the fallback app.py script; its
directory path is the resolved component path. -/
theorem run_component_entry_resolution_witness :
    (run_component cfgDefault (envWith fsNoMain true 0) "factory-app-ai"
        [] false).2 =
      [RunEffect.spawn (["python", pathToString ((cfgDefault.root_dir.join
          (parsePath "src/platfom/Factory-App-AI")).child "app.py")] ++ [])
        (cfgDefault.root_dir.join (parsePath "src/platfom/Factory-App-AI"))] :=
  (run_component_entry_resolution cfgDefault (envWith fsNoMain true 0)
      "factory-app-ai" [] false
      ⟨"Factory-App-AI", "src/platfom/Factory-App-AI",
       "https://github.com/ruslanmv/Factory-App-AI", true⟩
      (by decide) (by decide) (by decide)).1 (by decide) (by decide)

/-- C6: an available but disabled component always fails with the
not-enabled ComponentError and spawns nothing, while an unavailable id
fails with SubmoduleNotFoundError instead (the availability check comes
first). -/
theorem run_component_disabled (cfg : FactoryAIConfig) (env : ProcEnv)
    (component : String) (args : List String) (interactive : Bool) :
    (∀ comp : SubmoduleConfig,
      cfg.components.lookup component = some comp →
      is_component_available cfg env.fs component = true →
      comp.enabled = false →
      run_component cfg env component args interactive =
        (.error (.componentError component "Component is not enabled"), []))
    ∧ (is_component_available cfg env.fs component = false →
      run_component cfg env component args interactive =
        (.error (.submoduleNotFound component), [])) := by
  constructor
  · intro comp hl ha he
    simp [run_component, ha, hl, he]
  · intro ha
    simp [run_component, ha]

/-- C6 witness: factory-debug is present, available on an all-directories
filesystem, and disabled, so running it yields the not-enabled error with
an empty spawn trace; on an empty filesystem the same id is unavailable
and yields SubmoduleNotFoundError. -/
theorem run_component_disabled_witness :
    run_component cfgDefault (envWith fsAll true 0) "factory-debug" [] true
      = (.error (.componentError "factory-debug" "Component is not enabled"),
         [])
    ∧ run_component cfgDefault (envWith fsNone true 0) "factory-debug" []
        true = (.error (.submoduleNotFound "factory-debug"), []) :=
  ⟨(run_component_disabled cfgDefault (envWith fsAll true 0) "factory-debug"
      [] true).1
      ⟨"Factory-Debug", "src/platfom/Factory-Debug",
       "https://github.com/ruslanmv/Factory-Debug", false⟩
      (by decide) (by decide) (by decide),
   (run_component_disabled cfgDefault (envWith fsNone true 0) "factory-debug"
      [] true).2 (by decide)⟩

/-- C7: when git is reported not installed, sync_submodules fails with
the FactoryAIError carrying a remediation hint and performs no filesystem
effect (no directory creation, no git invocation); likewise when the root
directory is not a git working tree. -/
theorem sync_submodules_guards (cfg : FactoryAIConfig) (env : ProcEnv)
    (force : Bool) :
    (env.git_installed = false →
      sync_submodules cfg env force =
        (.error (.factoryAIError "Git is not installed"
          (some "Please install Git to use FactoryAI.")), []))
    ∧ (env.git_installed = true →
      is_git_repository env.fs cfg.root_dir = false →
      sync_submodules cfg env force =
        (.error (.factoryAIError
          ("Not a git repository: " ++ pathToString cfg.root_dir)
          (some "Please clone the FactoryAI repository properly.")), [])) := by
  constructor
  · intro h
    simp [sync_submodules, h]
  · intro hg hr
    simp [sync_submodules, hg, hr]

/-- C7 witness: with git reported missing, sync fails with the
install-git hint and an empty effect trace; with git present but the root
not a repository, sync fails with the clone hint and an empty trace. -/
theorem sync_submodules_guards_witness :
    sync_submodules cfgDefault (envWith fsAll false 0) false =
      (.error (.factoryAIError "Git is not installed"
        (some "Please install Git to use FactoryAI.")), [])
    ∧ sync_submodules cfgDefault (envWith fsNone true 0) false =
      (.error (.factoryAIError
        ("Not a git repository: " ++ pathToString cfgDefault.root_dir)
        (some "Please clone the FactoryAI repository properly.")), []) :=
  ⟨(sync_submodules_guards cfgDefault (envWith fsAll false 0) false).1 rfl,
   (sync_submodules_guards cfgDefault (envWith fsNone true 0) false).2
     rfl (by decide)⟩

theorem tupleLt_iff_lex (l1 l2 : List Int) :
    tupleLt l1 l2 = true ↔ List.Lex (fun a b => a < b) l1 l2 := by
  induction l1 generalizing l2 with
  | nil =>
    cases l2 with
    | nil =>
      simp only [tupleLt, Bool.false_eq_true, false_iff]
      intro h
      cases h
    | cons b bs =>
      simp only [tupleLt, true_iff]
      exact List.Lex.nil
  | cons a as ih =>
    cases l2 with
    | nil =>
      simp only [tupleLt, Bool.false_eq_true, false_iff]
      intro h
      cases h
    | cons b bs =>
      simp only [tupleLt]
      by_cases hab : a < b
      · simp only [hab, if_true, true_iff]
        exact List.Lex.rel hab
      · by_cases heq : a = b
        · subst heq
          rw [if_neg hab, if_pos rfl, ih]
          constructor
          · exact fun h => List.Lex.cons h
          · intro h
            cases h with
            | cons h2 => exact h2
            | rel h2 => exact absurd h2 hab
        · simp only [hab, heq, if_false, Bool.false_eq_true, false_iff]
          intro h
          cases h with
          | cons h2 => exact heq rfl
          | rel h2 => exact hab h2

theorem mapIntSegs_eq_none_of_mem (l : List String) (s : String)
    (hs : s ∈ l) (hf : pyIntOfString s = none) : mapIntSegs l = none := by
  induction l with
  | nil => cases hs
  | cons x t ih =>
    rcases List.mem_cons.mp hs with rfl | hs2
    · simp [mapIntSegs, hf]
    · cases hx : pyIntOfString x with
      | none => simp [mapIntSegs, hx]
      | some y => simp [mapIntSegs, hx, ih hs2]

/-- C8: compare_versions realises pad-free lexicographic tuple comparison
on dot-separated integer versions — the three reference comparisons hold,
the boolean tuple order coincides with lexicographic list order on the
parsed integer lists, and any version string with a segment that int()
rejects makes parsing fail with a ValidationError. -/
theorem compare_versions_spec :
    compare_versions "1.2" "1.2.0" = .ok (-1)
    ∧ compare_versions "1.2.3" "1.2.3" = .ok 0
    ∧ compare_versions "2.0.0" "1.2.3" = .ok 1
    ∧ (∀ l1 l2 : List Int,
        tupleLt l1 l2 = true ↔ List.Lex (fun a b => a < b) l1 l2)
    ∧ (∀ (v s : String), s ∈ (splitOnChar '.' v.data).map String.mk →
        pyIntOfString s = none →
        parse_version v =
          .error (.validationError ("Invalid version string: " ++ v))) := by
  refine ⟨rfl, rfl, rfl, tupleLt_iff_lex, ?_⟩
  intro v s hs hnone
  simp only [parse_version, mapIntSegs_eq_none_of_mem _ s hs hnone]

/-- C8 witness: a segment rejected by int() ("a" in "1.a") makes
parse_version fail with the ValidationError naming the input. -/
theorem compare_versions_spec_witness :
    parse_version "1.a" =
      .error (.validationError "Invalid version string: 1.a") :=
  compare_versions_spec.2.2.2.2 "1.a" "a" (by decide) (by decide)

/-- C10: in the validate_installation report, `valid` is true iff both
the git-installed probe and the git-repository check pass;
`submodules_initialized` is true iff some component is reported both
available and enabled; when it is false, the no-components error string
is in the accumulated errors (while `valid` is unaffected, as the first
equivalence shows). -/
theorem validate_installation_spec (cfg : FactoryAIConfig) (env : ProcEnv) :
    ((validate_installation cfg env).valid = true ↔
      (env.git_installed = true
        ∧ is_git_repository env.fs cfg.root_dir = true))
    ∧ ((validate_installation cfg env).submodules_initialized = true ↔
        ∃ nc ∈ get_component_status cfg env.fs,
          nc.2.available = true ∧ nc.2.enabled = true)
    ∧ ((validate_installation cfg env).submodules_initialized = false →
        "No components are initialized. Run 'factoryai sync' or 'make sync'."
          ∈ (validate_installation cfg env).errors) := by
  refine ⟨?_, ?_, ?_⟩
  · simp only [validate_installation]
    cases hg : env.git_installed <;>
      cases hr : is_git_repository env.fs cfg.root_dir <;> simp [hg, hr]
  · simp only [validate_installation]
    rw [decide_eq_true_eq, List.length_map, gt_iff_lt, List.length_pos]
    rw [Ne, List.filter_eq_nil_iff]
    push_neg
    simp only [Bool.and_eq_true, not_not]
  · intro h
    simp only [validate_installation] at h ⊢
    rw [decide_eq_false_iff_not, List.length_map, not_lt, Nat.le_zero,
      List.length_eq_zero] at h
    simp [h]

/-- C10 witness: on an empty filesystem no component is available, so the
report carries the no-components error string. -/
theorem validate_installation_spec_witness :
    "No components are initialized. Run 'factoryai sync' or 'make sync'."
      ∈ (validate_installation cfgDefault (envWith fsNone true 0)).errors :=
  (validate_installation_spec cfgDefault (envWith fsNone true 0)).2.2
    (by decide)

theorem FPath.wf_join (p q : FPath) (hp : p.wf = true) (hq : q.wf = true) :
    (p.join q).wf = true := by
  simp only [FPath.join]
  split
  · exact hq
  · simp only [FPath.wf, List.all_append] at *
    simp [hp, hq]

/-- C4 (amended): serialize-then-deserialize reproduces the configuration
for every configuration constructed from a well-formed absolute root
directory, any well-formed submodules directory, any log level, any
(well-formed or null) log file, and any component mapping, including the
empty one (which construction repopulates with the three defaults); with
a relative root directory the round trip re-applies the root join to the
already-joined submodules directory and fails (see the counterexample). -/
theorem config_roundtrip (rd sd : FPath) (ll : String) (lf : Option FPath)
    (comps : List (String × SubmoduleConfig))
    (habs : rd.absolute = true) (hrd : rd.wf = true) (hsd : sd.wf = true)
    (hlf : ∀ p, lf = some p → p.wf = true) :
    from_dict (to_dict (mkFactoryAIConfig rd sd ll lf comps)) =
      mkFactoryAIConfig rd sd ll lf comps := by
  have hS_wf : (if sd.absolute then sd else rd.join sd).wf = true := by
    split
    · exact hsd
    · exact FPath.wf_join rd sd hrd hsd
  have hS_abs : (if sd.absolute then sd else rd.join sd).absolute = true := by
    split
    · next h => exact h
    · next h =>
      simp only [FPath.join, if_neg h]
      exact habs
  have hC_ne : (if comps.isEmpty then default_components
      else comps).isEmpty = false := by
    cases comps with
    | nil => rfl
    | cons kv t => rfl
  show from_dict (to_dict ⟨rd, if sd.absolute then sd else rd.join sd, ll,
      lf, if comps.isEmpty then default_components else comps⟩) =
    ⟨rd, if sd.absolute then sd else rd.join sd, ll, lf,
      if comps.isEmpty then default_components else comps⟩
  generalize hS : (if sd.absolute then sd else rd.join sd) = S at *
  generalize hC : (if comps.isEmpty then default_components else comps)
    = C at *
  simp only [to_dict, from_dict, mkFactoryAIConfig]
  rw [parsePath_pathToString rd hrd, parsePath_pathToString S hS_wf]
  rw [if_pos hS_abs, hC_ne]
  cases lf with
  | none => rfl
  | some p =>
    have hw := hlf p rfl
    simp only [Option.map_some']
    rw [if_neg (pathToString_ne_empty p hw), parsePath_pathToString p hw]
    simp

/-- C4 witness: a configuration with absolute root, relative submodules
directory, a log file and the default-repopulated empty component mapping
round-trips to itself. -/
theorem config_roundtrip_witness :
    from_dict (to_dict (mkFactoryAIConfig ⟨true, ["opt"]⟩
        ⟨false, ["src", "platfom"]⟩ "INFO"
        (some ⟨true, ["var", "log", "fai.log"]⟩) [])) =
      mkFactoryAIConfig ⟨true, ["opt"]⟩ ⟨false, ["src", "platfom"]⟩ "INFO"
        (some ⟨true, ["var", "log", "fai.log"]⟩) [] :=
  config_roundtrip ⟨true, ["opt"]⟩ ⟨false, ["src", "platfom"]⟩ "INFO"
    (some ⟨true, ["var", "log", "fai.log"]⟩) [] rfl (by decide) (by decide)
    (fun p hp => by cases hp; decide)

/-- C4 counterexample: for a configuration built from a relative root
directory, deserializing the serialized record applies the
relative-to-absolute join a second time, so the round trip does not
reproduce the configuration — refuting the claim for every valid
Configuration in the unrestricted sense. -/
theorem config_roundtrip_counterexample :
    from_dict (to_dict cfgRelative) ≠ cfgRelative
    ∧ (from_dict (to_dict cfgRelative)).submodules_dir
        = ⟨false, ["rel", "rel", "sub"]⟩
    ∧ cfgRelative.submodules_dir = ⟨false, ["rel", "sub"]⟩ :=
  ⟨by decide, by decide, rfl⟩

end FactoryAI
